import Mathlib

/-!
Verification of the tide terminal-UI framework core (watzon/tide, Go).

This file gives a shallow embedding, in Lean, of the parts of the source
relevant to the frozen claims:

* `pkg/core/geometry.go`             — `Point`, `Size`, `Rect`
* `internal/utils/utils.go`          — `ClampInt`, `EqualRunes`
* `pkg/widget` constraints file      — `Constraints` and its operations
* `pkg/widget` render-object file    — `BaseRenderObject.Layout`,
                                       `BaseRenderBox.Layout`, `layoutChildren`
* `pkg/widget` element file          — `BaseElement` / `baseStatefulElement`
                                       lifecycle (`Mount`, `Build`, `Update`,
                                       `ReplaceChild`, `Unmount`, `LayoutPhase`).
                                       The repository snapshot carries two
                                       copies of the element code; the copy
                                       embedded here is the one whose `Build`
                                       has the `newWidget == e.widget` guard —
                                       the other copy recurses forever on any
                                       self-building widget, so it cannot be
                                       the code the test-suite exercises.
* `pkg/backend/terminal/buffer.go`   — `Buffer` (`SetCell`, `Clear`, cursor)
* `pkg/backend/terminal/terminal.go` — `Present`, `DrawStyledCell`,
                                       `SetCursor`, `Resume`, alt-screen and
                                       clipboard handling
* `pkg/backend/terminal/clipboard.go`— `SystemClipboard` / `FallbackClipboard`
* `pkg/engine/render_context.go` and
  `pkg/engine/terminal_context.go`   — clip/offset stacks and
                                       `TerminalContext.DrawCell`

Go machine integers are modelled as `Int` (no arithmetic here approaches
overflow), runes as a code point paired with its `unicode.IsMark`
classification, and the physical `tcell.Screen` as a trace of emitted
device operations.  External collaborators (the OS clipboard commands, the
device `Init` outcome, the color mapper) are modelled as explicit oracle
inputs, mirroring the spec's boundary description.
-/

namespace Tide

/-! ## Geometry (`pkg/core/geometry.go`) -/

/-- `core.Point`. -/
structure GPoint where
  X : Int
  Y : Int
deriving DecidableEq, Repr

/-- `core.Size`. -/
structure Size where
  Width : Int
  Height : Int
deriving DecidableEq, Repr

/-- `core.Rect`. -/
structure Rect where
  Min : GPoint
  Max : GPoint
deriving DecidableEq, Repr

/-- `core.NewRect`. -/
def NewRect (x y width height : Int) : Rect :=
  ⟨⟨x, y⟩, ⟨x + width, y + height⟩⟩

/-- `utils.ClampInt`: clamps `i` into `[low, high]`, swapping reversed bounds. -/
def ClampInt (i low high : Int) : Int :=
  let lo := if low > high then high else low
  let hi := if low > high then low else high
  if i < lo then lo else if i > hi then hi else i

/-! ## Constraints (`pkg/widget`, constraints file) -/

/-- `widget.Constraints`. -/
structure Constraints where
  MinSize : Size
  MaxSize : Size
deriving DecidableEq, Repr

/-- `Constraints.Normalize`: componentwise `min`/`max` of the two bounds. -/
def Constraints.Normalize (c : Constraints) : Constraints :=
  { MinSize := ⟨min c.MinSize.Width c.MaxSize.Width,
                min c.MinSize.Height c.MaxSize.Height⟩
    MaxSize := ⟨max c.MinSize.Width c.MaxSize.Width,
                max c.MinSize.Height c.MaxSize.Height⟩ }

/-- `Constraints.WithMinSize`: replace the minimum bound, then normalize. -/
def Constraints.WithMinSize (c : Constraints) (size : Size) : Constraints :=
  Constraints.Normalize { c with MinSize := size }

/-- `Constraints.WithMaxSize`: replace the maximum bound, then normalize. -/
def Constraints.WithMaxSize (c : Constraints) (size : Size) : Constraints :=
  Constraints.Normalize { c with MaxSize := size }

/-- `Constraints.Constrain`: clamp a size into the envelope, per axis. -/
def Constraints.Constrain (c : Constraints) (size : Size) : Size :=
  ⟨ClampInt size.Width c.MinSize.Width c.MaxSize.Width,
   ClampInt size.Height c.MinSize.Height c.MaxSize.Height⟩

/-- `Constraints.IsSatisfiedBy`. -/
def Constraints.IsSatisfiedBy (c : Constraints) (size : Size) : Bool :=
  size.Width ≥ c.MinSize.Width && size.Width ≤ c.MaxSize.Width &&
  size.Height ≥ c.MinSize.Height && size.Height ≤ c.MaxSize.Height

/-- `Constraints.IsNormalized`. -/
def Constraints.IsNormalized (c : Constraints) : Bool :=
  c.MinSize.Width ≤ c.MaxSize.Width && c.MinSize.Height ≤ c.MaxSize.Height

/-- `Constraints.HasTightWidth`. -/
def Constraints.HasTightWidth (c : Constraints) : Bool :=
  c.MinSize.Width == c.MaxSize.Width

/-- `Constraints.HasTightHeight`. -/
def Constraints.HasTightHeight (c : Constraints) : Bool :=
  c.MinSize.Height == c.MaxSize.Height

/-- `Constraints.IsTight`. -/
def Constraints.IsTight (c : Constraints) : Bool :=
  c.HasTightWidth && c.HasTightHeight

/-! ## Edge insets and widget style (`pkg/widget/edge_insets.go`, style file)

Only the fields `BaseRenderBox.Layout` reads (`Padding`, `BorderWidth`) are
modelled; the remaining style fields do not participate in any claim. -/

/-- `widget.EdgeInsets`. -/
structure EdgeInsets where
  Top : Int
  Right : Int
  Bottom : Int
  Left : Int
deriving DecidableEq, Repr

/-- `widget.WidgetStyle`, restricted to the layout-relevant fields. -/
structure WidgetStyle where
  Padding : EdgeInsets
  BorderWidth : EdgeInsets
deriving DecidableEq, Repr

/-- The zero-valued `WidgetStyle` (no padding, no border). -/
def WidgetStyle.zero : WidgetStyle := ⟨⟨0, 0, 0, 0⟩, ⟨0, 0, 0, 0⟩⟩

/-! ## Render objects (`pkg/widget`, render-object file)

`BaseRenderObject` stores the last size/constraints and a style;
`BaseRenderBox` adds the box-model `Layout`.  The tree is modelled as an
inductive: a node is either a plain base render object or a render box,
each owning an ordered child list.  `Layout` returns the updated node
together with the computed size (the Go code mutates `r.size` /
`r.constraints` in place and returns the size). -/

inductive RenderObj where
  /-- A `BaseRenderObject` with its stored size, constraints and style. -/
  | base (size : Size) (constraints : Constraints) (style : WidgetStyle)
      (children : List RenderObj)
  /-- A `BaseRenderBox` with its stored size, constraints and style. -/
  | box (size : Size) (constraints : Constraints) (style : WidgetStyle)
      (children : List RenderObj)

/-- The horizontal inset of a box style: `Padding.Left + Padding.Right +
BorderWidth.Left + BorderWidth.Right` (`BaseRenderBox.Layout`, step 1). -/
def WidgetStyle.horizontalInsets (s : WidgetStyle) : Int :=
  s.Padding.Left + s.Padding.Right + s.BorderWidth.Left + s.BorderWidth.Right

/-- The vertical inset of a box style. -/
def WidgetStyle.verticalInsets (s : WidgetStyle) : Int :=
  s.Padding.Top + s.Padding.Bottom + s.BorderWidth.Top + s.BorderWidth.Bottom

/-- The content constraints a `BaseRenderBox` derives from its incoming
constraints (step 2 of `BaseRenderBox.Layout`): both bounds are reduced by
the insets, each component floored at zero independently. -/
def contentConstraintsOf (s : WidgetStyle) (c : Constraints) : Constraints :=
  { MinSize := ⟨max 0 (c.MinSize.Width - s.horizontalInsets),
                max 0 (c.MinSize.Height - s.verticalInsets)⟩
    MaxSize := ⟨max 0 (c.MaxSize.Width - s.horizontalInsets),
                max 0 (c.MaxSize.Height - s.verticalInsets)⟩ }

mutual

/-- `Layout`.  `BaseRenderObject.Layout` records the constraints and returns
`constraints.Constrain(constraints.MinSize)`; `BaseRenderBox.Layout` runs the
box model: derive content constraints, lay out children, add the insets back
and re-clamp against the original constraints.  (The box variant does not
record the incoming constraints — the Go override never writes
`r.constraints`.) -/
def RenderObj.Layout : RenderObj → Constraints → RenderObj × Size
  | .base _ _ st ch, c =>
      let s := c.Constrain c.MinSize
      (.base s c st ch, s)
  | .box _ cs st ch, c =>
      let cc := contentConstraintsOf st c
      let (ch', contentSize) := layoutChildren ch cc
      let full : Size := ⟨contentSize.Width + st.horizontalInsets,
                          contentSize.Height + st.verticalInsets⟩
      let s := c.Constrain full
      (.box s cs st ch', s)

/-- `BaseRenderBox.layoutChildren`: no children — the content size defaults
to the content constraints' `MinSize`; otherwise only the first child is
laid out, with the full content constraints. -/
def layoutChildren : List RenderObj → Constraints → List RenderObj × Size
  | [], c => ([], c.MinSize)
  | child :: rest, c =>
      let (child', s) := child.Layout c
      (child' :: rest, s)

end

/-- Stored constraints of a render object. -/
def RenderObj.constraints : RenderObj → Constraints
  | .base _ c _ _ => c
  | .box _ c _ _ => c

/-- Stored size of a render object. -/
def RenderObj.size : RenderObj → Size
  | .base s _ _ _ => s
  | .box s _ _ _ => s

/-- Children of a render object. -/
def RenderObj.children : RenderObj → List RenderObj
  | .base _ _ _ ch => ch
  | .box _ _ _ ch => ch

/-! ## Widgets (`pkg/widget/widget.go`)

A widget value is modelled by its Go dynamic type name (`fmt.Sprintf("%T", …)`
of the concrete type), whether that type implements `StatefulWidget`, its
style and constraints, and the outcome of its (or its state's) `Build`.
`wid` is the allocation identity: Go compares widgets with interface
equality, i.e. pointer identity, which the model renders as `wid` equality
(distinct allocations carry distinct `wid`s).  `buildResult = none` models a
widget whose `Build` returns the receiver itself (as `BaseWidget.Build` and
an un-configured `MockWidget.Build` do); `stateBuild` is what the `State`
created by this widget's `CreateState` builds — `none` again standing for
the element's own current widget. -/

inductive Widget where
  | mk (wid : Nat) (typeName : String) (stateful : Bool) (style : WidgetStyle)
      (constraintsVal : Constraints) (buildResult : Option Widget)
      (stateBuild : Option Widget)

/-- Allocation identity of a widget (Go interface/pointer equality). -/
def Widget.wid : Widget → Nat
  | .mk i _ _ _ _ _ _ => i

/-- `Widget.GetType` discriminator: the dynamic type name. -/
def Widget.typeName : Widget → String
  | .mk _ t _ _ _ _ _ => t

/-- Whether the dynamic type implements `StatefulWidget`. -/
def Widget.stateful : Widget → Bool
  | .mk _ _ s _ _ _ _ => s

/-- The widget's style (read by `CreateRenderObject`/`UpdateRenderObject`). -/
def Widget.style : Widget → WidgetStyle
  | .mk _ _ _ st _ _ _ => st

/-- `Widget.GetConstraints`. -/
def Widget.GetConstraints : Widget → Constraints
  | .mk _ _ _ _ c _ _ => c

/-- Result of `Build` when it does not return the receiver. -/
def Widget.buildResult : Widget → Option Widget
  | .mk _ _ _ _ _ b _ => b

/-- Result of the created state's `Build` (stateful widgets). -/
def Widget.stateBuild : Widget → Option Widget
  | .mk _ _ _ _ _ _ sb => sb

/-- The outcome of `widget.Build(ctx)`: the configured build result, or the
receiver itself. -/
def Widget.build (w : Widget) : Widget := w.buildResult.getD w

/-- The `_, ok := w.(*MockWidget)` type test used by `BaseElement.Update`:
succeeds exactly when the dynamic type is `*widget.MockWidget`. -/
def Widget.isMock (w : Widget) : Bool := w.typeName == "*widget.MockWidget"

/-- `BaseWidget.CreateRenderObject`: a fresh `BaseRenderObject` carrying the
widget's style (zero-valued size and constraints). -/
def Widget.CreateRenderObject (w : Widget) : RenderObj :=
  .base ⟨0, 0⟩ ⟨⟨0, 0⟩, ⟨0, 0⟩⟩ w.style []

/-- `BaseWidget.UpdateRenderObject`: pushes the widget's style into the
render object when (and only when) it is exactly a `*BaseRenderObject` —
the Go type assertion fails for `*BaseRenderBox` and other concrete types,
leaving those untouched. -/
def updateRenderObject (w : Widget) : Option RenderObj → Option RenderObj
  | some (.base s c _ ch) => some (.base s c w.style ch)
  | ro => ro

/-- The `State` owned by a `baseStatefulElement`: its allocation identity
and what its `Build` produces (`none` = the owning element's widget). -/
structure StateV where
  sid : Nat
  buildsTo : Option Widget

/-! ## Elements (`pkg/widget`, element file)

`BaseElement` and `baseStatefulElement` are merged into one node type
discriminated by `stateful`; `id` is the allocation identity (Go pointer).
Parent back-references are not stored: every operation that consults
`e.parent` (`Update`, `MarkNeedsBuild`) is modelled on the parent itself
(the `update` frame of `recon`), with the parent taken as the root of the
modelled subtree, so upward dirty-propagation ends there. -/

inductive Elem where
  | mk (id : Nat) (stateful : Bool) (state : Option StateV) (widget : Widget)
      (children : List Elem) (renderObject : Option RenderObj)
      (dirty mounted needsLayout : Bool)

/-- Allocation identity (Go pointer) of the element. -/
def Elem.id : Elem → Nat
  | .mk i _ _ _ _ _ _ _ _ => i

/-- Whether this node is a `baseStatefulElement`. -/
def Elem.isStateful : Elem → Bool
  | .mk _ s _ _ _ _ _ _ _ => s

/-- The owned `State` (stateful elements only). -/
def Elem.state : Elem → Option StateV
  | .mk _ _ st _ _ _ _ _ _ => st

/-- The owned widget reference. -/
def Elem.widget : Elem → Widget
  | .mk _ _ _ w _ _ _ _ _ => w

/-- The ordered child list. -/
def Elem.children : Elem → List Elem
  | .mk _ _ _ _ cs _ _ _ _ => cs

/-- The owned render object. -/
def Elem.renderObject : Elem → Option RenderObj
  | .mk _ _ _ _ _ ro _ _ _ => ro

/-- The needs-rebuild flag. -/
def Elem.dirty : Elem → Bool
  | .mk _ _ _ _ _ _ d _ _ => d

/-- The mounted flag. -/
def Elem.mounted : Elem → Bool
  | .mk _ _ _ _ _ _ _ m _ => m

/-- The needs-layout flag. -/
def Elem.needsLayout : Elem → Bool
  | .mk _ _ _ _ _ _ _ _ nl => nl

/-- Field update: widget reference. -/
def Elem.withWidget (w : Widget) : Elem → Elem
  | .mk i s st _ cs ro d m nl => .mk i s st w cs ro d m nl

/-- Field update: child list. -/
def Elem.withChildren (cs : List Elem) : Elem → Elem
  | .mk i s st w _ ro d m nl => .mk i s st w cs ro d m nl

/-- Field update: dirty flag. -/
def Elem.withDirty (d : Bool) : Elem → Elem
  | .mk i s st w cs ro _ m nl => .mk i s st w cs ro d m nl

/-- Field update: apply a function to the render-object slot. -/
def Elem.mapRenderObject (f : Option RenderObj → Option RenderObj) : Elem → Elem
  | .mk i s st w cs ro d m nl => .mk i s st w cs (f ro) d m nl

/-- `NewElement`: allocate the element kind matching the widget —
`NewStatefulElement` (which immediately calls `widget.CreateState()`) for
stateful widgets, a plain `BaseElement` otherwise.  `fresh` is the
allocator: returned ids are fresh and the next unused id is returned. -/
def NewElement (w : Widget) (fresh : Nat) : Elem × Nat :=
  if w.stateful then
    (.mk fresh true (some ⟨fresh + 1, w.stateBuild⟩) w [] none false false false,
     fresh + 2)
  else
    (.mk fresh false none w [] none false false false, fresh + 1)

/-- `Unmount`: no-op when not mounted; otherwise the children are
recursively unmounted (post-order) and released (`e.children = nil`), the
render object is released, and the stateful variant disposes its state
first (`e.state = nil`).  The released children are unreachable from the
tree afterwards, so only the cleared fields remain observable. -/
def Elem.Unmount (e : Elem) : Elem :=
  if e.mounted then
    .mk e.id e.isStateful none e.widget [] none e.dirty false e.needsLayout
  else e

/-- The in-place tail shared by `BaseElement.Update` (same-type branch)
and `baseStatefulElement.Update`: replace the widget reference, push the
new widget's data into the render object (`UpdateRenderObject`), and set
the dirty flag (`MarkNeedsBuild` on the element itself; its upward
propagation is applied at the parent by the `update` frame). -/
def inPlaceUpdated (child : Elem) (w : Widget) : Elem :=
  ((child.withWidget w).mapRenderObject (updateRenderObject w)).withDirty true

/-- One call frame of the mutually recursive reconciliation operations
(`Mount` / `Build` / its shared tail / `Update` on `p.children[i]` /
`ReplaceChild`).  A single frame type keeps the recursion structural in
the fuel, so the operations compute by reduction. -/
inductive ReconCall where
  | mount (e : Elem)
  | build (e : Elem)
  | buildStep (e : Elem) (nw : Widget)
  | update (p : Elem) (i : Nat) (w : Widget)
  | replace (p : Elem) (old newE : Elem)

/-- Result of a reconciliation call: the updated receiver, the displaced
(unmounted) element when a `ReplaceChild` fired, and the next fresh id. -/
structure ReconRes where
  elem : Elem
  displaced : Option Elem
  fresh : Nat

/-- The reconciliation recursion, faithful to the element code:

* `mount e` — `Mount(parent)`: idempotent guard, then create the render
  object from the widget, mark mounted, run the stateful `MountState` hook
  (no modelled effect: it wires back-references and calls the default
  no-op `InitState`), and run the initial `Build`.
* `build e` — `Build()`: no-op when unmounted.  The plain element asks its
  widget for a new widget and stops (merely clearing `dirty`) when `Build`
  returned the very widget the element already owns; the stateful element
  builds through its state and has no such guard.
* `buildStep e nw` — the shared tail of both `Build` bodies: update the
  existing first child with the built widget, or create and mount a fresh
  child element; finally clear the dirty flag.
* `update p i w` — `Update(newWidget)` invoked on `p.children[i]`, whose
  parent is `p`.  The stateful variant updates unconditionally in place
  (the `newWidget.(StatefulWidget)` assertion panics — modelled as `none`
  — for a non-stateful widget).  The plain variant replaces the element
  through the parent's `ReplaceChild` when exactly one of the two widgets
  is a `*MockWidget` (the live code's type test), and otherwise updates in
  place; `MarkNeedsBuild` propagates to `p`, the modelled root.
* `replace p old newE` — `ReplaceChild(old, new)`: locate `old` among the
  children by pointer identity (`id`); silently no-op when absent.
  Otherwise unmount `old`, install `new` in the same slot, `Mount` it, and
  mark the parent dirty.

`fuel` bounds the recursion depth; `none` = out of fuel (or a Go panic). -/
def recon : Nat → ReconCall → Nat → Option ReconRes
  | 0, _, _ => none
  | fuel + 1, .mount e, fresh =>
      if e.mounted then some ⟨e, none, fresh⟩
      else
        recon fuel
          (.build (.mk e.id e.isStateful e.state e.widget e.children
            (some e.widget.CreateRenderObject) e.dirty true e.needsLayout))
          fresh
  | fuel + 1, .build e, fresh =>
      if !e.mounted then some ⟨e, none, fresh⟩
      else if e.isStateful then
        match e.state with
        | none => none
        | some st => recon fuel (.buildStep e (st.buildsTo.getD e.widget)) fresh
      else
        let nw := e.widget.build
        if nw.wid == e.widget.wid then some ⟨e.withDirty false, none, fresh⟩
        else recon fuel (.buildStep e nw) fresh
  | fuel + 1, .buildStep e nw, fresh =>
      match e.children with
      | [] =>
          let (child, f1) := NewElement nw fresh
          match recon fuel (.mount child) f1 with
          | none => none
          | some r => some ⟨(e.withChildren [r.elem]).withDirty false, none, r.fresh⟩
      | _ :: _ =>
          match recon fuel (.update e 0 nw) fresh with
          | none => none
          | some r => some ⟨r.elem.withDirty false, none, r.fresh⟩
  | fuel + 1, .update p i w, fresh =>
      match p.children[i]? with
      | none => some ⟨p, none, fresh⟩
      | some child =>
          if child.isStateful then
            if !w.stateful then none
            else
              some ⟨(p.withChildren
                (p.children.set i (inPlaceUpdated child w))).withDirty true,
                none, fresh⟩
          else if child.widget.isMock != w.isMock then
            let (newElem, f1) := NewElement w fresh
            recon fuel (.replace p child newElem) f1
          else
            some ⟨(p.withChildren
              (p.children.set i (inPlaceUpdated child w))).withDirty true,
              none, fresh⟩
  | fuel + 1, .replace p old newE, fresh =>
      match p.children.findIdx? (fun c => c.id == old.id) with
      | none => some ⟨p, none, fresh⟩
      | some j =>
          match recon fuel (.mount newE) fresh with
          | none => none
          | some r =>
              some ⟨(p.withChildren (p.children.set j r.elem)).withDirty true,
                some old.Unmount, r.fresh⟩

/-- `Mount`, as a fuelled top-level operation. -/
def mountE (fuel : Nat) (e : Elem) (fresh : Nat) : Option ReconRes :=
  recon fuel (.mount e) fresh

/-- `Update(w)` delivered to `p.children[i]`. -/
def updateChildAt (fuel : Nat) (p : Elem) (i : Nat) (w : Widget)
    (fresh : Nat) : Option ReconRes :=
  recon fuel (.update p i w) fresh

mutual

/-- `LayoutPhase`: return immediately when `needsLayout` is clear;
otherwise lay out the owned render object with the widget's constraints
(when present), invoke `LayoutPhase` on every child, and clear the flag. -/
def Elem.LayoutPhase : Elem → Elem
  | .mk i s st w cs ro d m nl =>
    if nl then
      .mk i s st w (layoutPhaseList cs)
        (ro.map fun r => (r.Layout w.GetConstraints).1) d m false
    else .mk i s st w cs ro d m nl

/-- The child recursion of `LayoutPhase`, in list order. -/
def layoutPhaseList : List Elem → List Elem
  | [] => []
  | e :: rest => e.LayoutPhase :: layoutPhaseList rest

end

/-! ## Terminal cell buffers (`pkg/backend/terminal/buffer.go`)

A rune is a Unicode code point together with its `unicode.IsMark`
classification (an external total function on code points, carried on the
value so the model stays executable).  `tcell.Style` values are opaque to
the core: the terminal only ever builds them as
`StyleDefault.Foreground(fg').Background(bg')` plus a mask of attribute
setters, so a style is either the default or such a composite; two
composites are equal exactly when their ingredients are.  `Cell.Width`
(`runewidth.RuneWidth`, external) is never consulted by the diff and is
omitted. -/

/-- A Go `rune` with its mark classification. -/
structure Rune where
  code : Nat
  mark : Bool
deriving DecidableEq, Repr

/-- The space rune `' '` (not a combining mark). -/
def spaceRune : Rune := ⟨32, false⟩

/-- `'◌'`, the dotted-circle placeholder (not a combining mark). -/
def placeholderRune : Rune := ⟨0x25CC, false⟩

/-- A `tcell.Style` as the core builds them. -/
inductive TStyle where
  | default
  | made (fg bg : Nat) (mask : Nat)
deriving DecidableEq, Repr

/-- The external color mapper (`t.optimizeColor`, out-of-scope
quantization): an injection from abstract colors to backend colors,
modelled as the identity on abstract color ids. -/
def optimizeColor (c : Nat) : Nat := c

/-- The style `DrawStyledCell` builds from its arguments. -/
def mkTStyle (fg bg mask : Nat) : TStyle :=
  .made (optimizeColor fg) (optimizeColor bg) mask

/-- `terminal.Cell` (rune, style, combining-mark list). -/
structure TCell where
  rune : Rune
  style : TStyle
  combining : List Nat
deriving DecidableEq, Repr

/-- `terminal.Buffer`: sparse cell map, size, cursor, dirty flag. -/
structure TBuffer where
  cells : GPoint → Option TCell
  size : Size
  cursor : GPoint
  dirty : Bool

/-- `Buffer.SetCell`: upsert the cell and mark the buffer dirty (no bounds
check at this layer). -/
def TBuffer.SetCell (b : TBuffer) (x y : Int) (ch : Rune) (combining : List Nat)
    (st : TStyle) : TBuffer :=
  { b with
    cells := fun p => if p = ⟨x, y⟩ then some ⟨ch, st, combining⟩ else b.cells p
    dirty := true }

/-- `Buffer.Clear`: drop every cell and mark dirty. -/
def TBuffer.Clear (b : TBuffer) : TBuffer :=
  { b with cells := fun _ => none, dirty := true }

/-- `Buffer.SetCursor`: set the cursor and mark dirty. -/
def TBuffer.SetCursor (b : TBuffer) (x y : Int) : TBuffer :=
  { b with cursor := ⟨x, y⟩, dirty := true }

/-! ## The terminal and its presentation loop
(`pkg/backend/terminal/terminal.go`)

The physical `tcell.Screen` is modelled as the trace of device operations a
call emits (`SetContent` / `ShowCursor` / `Show`); operations that touch
only buffers emit nothing.  The clipboard provider is carried
post-defaulting (a nil Go provider is replaced by `&SystemClipboard{}`
before first use); the system provider's fields are the oracle outcomes of
the external platform commands it shells out to. -/

/-- One call to the physical device. -/
inductive ScreenOp where
  | setContent (x y : Int) (ch : Rune) (comb : List Nat) (style : TStyle)
  | showCursor (x y : Int)
  | showFrame
deriving DecidableEq, Repr

/-- A clipboard provider: the platform one (with the outcomes of its
external commands as oracle fields) or the in-memory fallback. -/
inductive ClipProvider where
  | system (getVal : String) (getErr setErr : Bool)
  | fallback (content : String)
deriving DecidableEq, Repr

/-- `ClipboardProvider.Get`: content plus whether an error was returned.
`SystemClipboard.Get` yields `""` alongside an error; `FallbackClipboard.Get`
never fails. -/
def ClipProvider.get : ClipProvider → String × Bool
  | .system v e _ => if e then ("", true) else (v, false)
  | .fallback c => (c, false)

/-- `ClipboardProvider.Set`: the provider afterwards plus whether an error
was returned.  The system provider writes to the OS (no modelled state);
the fallback stores the content and never fails. -/
def ClipProvider.set : ClipProvider → String → ClipProvider × Bool
  | .system v ge se, _ => (.system v ge se, se)
  | .fallback _, content => (.fallback content, false)

/-- `terminal.Terminal`, restricted to the state the claims touch. -/
structure Term where
  mainFront : TBuffer
  mainBack : TBuffer
  altFront : TBuffer
  altBack : TBuffer
  usingAltScreen : Bool
  size : Size
  combiningChars : Bool
  unicodeMode : Bool
  suspended : Bool
  clipboardProvider : ClipProvider

/-- The front buffer `Present` reads, selected by `usingAltScreen`. -/
def Term.activeFront (t : Term) : TBuffer :=
  if t.usingAltScreen then t.altFront else t.mainFront

/-- The back buffer selected by `usingAltScreen`. -/
def Term.activeBack (t : Term) : TBuffer :=
  if t.usingAltScreen then t.altBack else t.mainBack

/-- Store an updated active back buffer (mirrors the in-place mutation of
the selected buffer). -/
def Term.setActiveBack (t : Term) (b : TBuffer) : Term :=
  if t.usingAltScreen then { t with altBack := b } else { t with mainBack := b }

/-- The `SetContent` call `Present` makes for a back cell: the
disabled-combining placeholder substitution applies to marks when combining
support is off, otherwise the cell is written as stored. -/
def emitBack (cc : Bool) (x y : Int) (bc : TCell) : ScreenOp :=
  if !cc && bc.rune.mark then .setContent x y placeholderRune [bc.rune.code] bc.style
  else .setContent x y bc.rune bc.combining bc.style

/-- The device write `Present` issues at one coordinate: skip when back and
front both hold that cell with equal rune, style and combining list
(`utils.EqualRunes` is element-wise slice equality); write the back cell
when the back buffer has one; otherwise write a blank. -/
def writeAt (front back : TBuffer) (cc : Bool) (x y : Int) : Option ScreenOp :=
  match back.cells ⟨x, y⟩, front.cells ⟨x, y⟩ with
  | some bc, some fc => if bc = fc then none else some (emitBack cc x y bc)
  | some bc, none => some (emitBack cc x y bc)
  | none, _ => some (.setContent x y spaceRune [] .default)

/-- The full row-major diff scan of `Present` over the surface bounds. -/
def presentScan (front back : TBuffer) (size : Size) (cc : Bool) :
    List ScreenOp :=
  (List.range size.Height.toNat).flatMap fun y : Nat =>
    (List.range size.Width.toNat).filterMap fun x : Nat =>
      writeAt front back cc (x : Int) (y : Int)

/-- `Terminal.Present`: no-op when the active back buffer is not dirty;
otherwise scan, push the back buffer's cursor, flush, and clear the back
buffer's dirty flag.  The device flush never fails in this code path, so
`Present` always returns a nil error. -/
def Term.Present (t : Term) : Term × List ScreenOp :=
  let front := t.activeFront
  let back := t.activeBack
  if !back.dirty then (t, [])
  else
    (t.setActiveBack { back with dirty := false },
     presentScan front back t.size t.combiningChars ++
       [.showCursor back.cursor.X back.cursor.Y, .showFrame])

/-- `Terminal.DrawStyledCell`: write into the back buffer selected by
`usingAltScreen`, handling the disabled-combining placeholder and the
merge of an enabled combining mark into the non-blank cell to its left. -/
def Term.DrawStyledCell (t : Term) (x y : Int) (ch : Rune) (fg bg : Nat)
    (mask : Nat) : Term :=
  let st := mkTStyle fg bg mask
  let backBuffer := if t.usingAltScreen then t.altBack else t.mainBack
  let backBuffer' :=
    if !t.combiningChars && ch.mark then
      backBuffer.SetCell x y placeholderRune [ch.code] st
    else if t.unicodeMode && t.combiningChars && ch.mark then
      match backBuffer.cells ⟨x - 1, y⟩ with
      | some prev =>
          if prev.rune = spaceRune then backBuffer.SetCell x y ch [] st
          else backBuffer.SetCell (x - 1) y prev.rune (prev.combining ++ [ch.code]) st
      | none => backBuffer.SetCell x y ch [] st
    else backBuffer.SetCell x y ch [] st
  if t.usingAltScreen then { t with altBack := backBuffer' }
  else { t with mainBack := backBuffer' }

/-- `Terminal.DrawCell` = `DrawStyledCell` with an empty style mask. -/
def Term.DrawCell (t : Term) (x y : Int) (ch : Rune) (fg bg : Nat) : Term :=
  t.DrawStyledCell x y ch fg bg 0

/-- `Terminal.SetCursor`: always the main back buffer — unlike `HideCursor`
this method does not select by `usingAltScreen`. -/
def Term.SetCursor (t : Term) (x y : Int) : Term :=
  { t with mainBack := t.mainBack.SetCursor x y }

/-- `Terminal.HideCursor`: park the cursor at `(-1,-1)` in the back buffer
of the active pair (this one does select by `usingAltScreen`), then the
device-level `screen.HideCursor` (external, no buffer effect). -/
def Term.HideCursor (t : Term) : Term :=
  if t.usingAltScreen then { t with altBack := t.altBack.SetCursor (-1) (-1) }
  else { t with mainBack := t.mainBack.SetCursor (-1) (-1) }

/-- `Terminal.EnterAltScreen`: when not already active, flip the flag,
clear both alternate buffers, and present the cleared alternate screen. -/
def Term.EnterAltScreen (t : Term) : Term × List ScreenOp :=
  if t.usingAltScreen then (t, [])
  else
    Term.Present
      { t with usingAltScreen := true, altFront := t.altFront.Clear,
               altBack := t.altBack.Clear }

/-- `Terminal.ExitAltScreen`: when active, flip the flag back and present
against the main buffer pair. -/
def Term.ExitAltScreen (t : Term) : Term × List ScreenOp :=
  if t.usingAltScreen then Term.Present { t with usingAltScreen := false }
  else (t, [])

/-- `Terminal.Suspend`: mark suspended, finalize the device, run the
callback (both external). -/
def Term.Suspend (t : Term) : Term := { t with suspended := true }

/-- `Terminal.Resume`: re-initialize the device; `initFails` is the oracle
for the external `screen.Init()` outcome.  On failure the error is
returned at once — before the line that clears the suspended flag; on
success the flag is cleared and the `onResume` callback runs (external).
Returns the terminal and whether an error was returned. -/
def Term.Resume (t : Term) (initFails : Bool) : Term × Bool :=
  if initFails then (t, true)
  else ({ t with suspended := false }, false)

/-- `Terminal.SetClipboard`: try the current provider; on error switch to a
fresh in-memory fallback and store through it (which cannot fail), so a nil
error is returned on both paths. -/
def Term.SetClipboard (t : Term) (content : String) : Term × Bool :=
  let (p', err) := t.clipboardProvider.set content
  if err then ({ t with clipboardProvider := .fallback content }, false)
  else ({ t with clipboardProvider := p' }, false)

/-- `Terminal.GetClipboard`: try the current provider; on error switch to a
fresh (empty) in-memory fallback and return its content with a nil error. -/
def Term.GetClipboard (t : Term) : Term × String × Bool :=
  let (v, err) := t.clipboardProvider.get
  if err then ({ t with clipboardProvider := .fallback "" }, "", false)
  else (t, v, false)

/-! ## Engine render context (`pkg/engine/render_context.go`,
`pkg/engine/terminal_context.go`)

The clip stack is the `ClipRect` linked list (head = innermost, the one
`IsInClipRect` consults); the offset is the cumulative translation.
`TerminalContext.IsInBounds` checks against the terminal's size. -/

/-- A `TerminalContext`: terminal size, cumulative offset, clip stack. -/
structure TermCtx where
  size : Size
  offset : GPoint
  clip : List Rect

/-- `BaseRenderContext.PushClipRect`. -/
def TermCtx.PushClipRect (c : TermCtx) (r : Rect) : TermCtx :=
  { c with clip := r :: c.clip }

/-- `BaseRenderContext.PopClipRect` (no-op on an empty stack). -/
def TermCtx.PopClipRect (c : TermCtx) : TermCtx :=
  { c with clip := c.clip.tail }

/-- `BaseRenderContext.PushOffset`: accumulate the translation. -/
def TermCtx.PushOffset (c : TermCtx) (p : GPoint) : TermCtx :=
  { c with offset := ⟨c.offset.X + p.X, c.offset.Y + p.Y⟩ }

/-- `BaseRenderContext.PopOffset`: reset to zero when nonzero. -/
def TermCtx.PopOffset (c : TermCtx) : TermCtx :=
  if c.offset.X ≠ 0 || c.offset.Y ≠ 0 then { c with offset := ⟨0, 0⟩ } else c

/-- `TerminalContext.IsInBounds`: the *untransformed* point against the
terminal size. -/
def TermCtx.IsInBounds (c : TermCtx) (x y : Int) : Bool :=
  decide (x ≥ 0) && decide (x < c.size.Width) &&
  decide (y ≥ 0) && decide (y < c.size.Height)

/-- `BaseRenderContext.IsInClipRect`: vacuously true with no clip rect;
otherwise the point *with the offset applied* against the innermost rect. -/
def TermCtx.IsInClipRect (c : TermCtx) (x y : Int) : Bool :=
  match c.clip with
  | [] => true
  | r :: _ =>
      let x' := x + c.offset.X
      let y' := y + c.offset.Y
      decide (x' ≥ r.Min.X) && decide (x' < r.Max.X) &&
      decide (y' ≥ r.Min.Y) && decide (y' < r.Max.Y)

/-- `TerminalContext.DrawCell`: gate on `IsInBounds` and `IsInClipRect`,
then forward to the terminal at the offset-transformed coordinate; the
glyph and colors pass through unchanged.  `none` = not forwarded. -/
def TermCtx.DrawCell (c : TermCtx) (x y : Int) (ch : Rune) (fg bg : Nat) :
    Option (GPoint × Rune × Nat × Nat) :=
  if !(c.IsInBounds x y) || !(c.IsInClipRect x y) then none
  else some (⟨x + c.offset.X, y + c.offset.Y⟩, ch, fg, bg)

/-! ## Concrete fixtures for the claims -/

/-- A buffer as `NewBuffer` creates it: no cells, cursor at the origin,
not dirty. -/
def blankBuffer (w h : Int) : TBuffer where
  cells := fun _ => none
  size := ⟨w, h⟩
  cursor := ⟨0, 0⟩
  dirty := false

/-- A terminal as `NewWithScreen` leaves it on a capable device: four empty
buffers, main screen active, combining marks and Unicode enabled, not
suspended, system clipboard provider (with an all-success oracle). -/
def freshTerm (w h : Int) : Term where
  mainFront := blankBuffer w h
  mainBack := blankBuffer w h
  altFront := blankBuffer w h
  altBack := blankBuffer w h
  usingAltScreen := false
  size := ⟨w, h⟩
  combiningChars := true
  unicodeMode := true
  suspended := false
  clipboardProvider := .system "" false false

/-- A terminal whose system clipboard provider fails on both `Get` and
`Set` (e.g. no clipboard utility is installed). -/
def failingClipTerm : Term :=
  { freshTerm 80 24 with clipboardProvider := .system "sys" true true }

/-- A context with a nonzero cumulative offset and a clip rect admitting
everything the offset can reach. -/
def offsetCtx : TermCtx := ⟨⟨10, 10⟩, ⟨5, 0⟩, [⟨⟨0, 0⟩, ⟨100, 100⟩⟩]⟩

/-- The Scenario D box: padding 5 on every side, no border, one child whose
`Layout` (the `BaseRenderObject` one) returns the constraints' `MinSize`. -/
def scenDBox : RenderObj :=
  .box ⟨0, 0⟩ ⟨⟨0, 0⟩, ⟨0, 0⟩⟩ ⟨⟨5, 5, 5, 5⟩, ⟨0, 0, 0, 0⟩⟩
    [.base ⟨0, 0⟩ ⟨⟨0, 0⟩, ⟨0, 0⟩⟩ WidgetStyle.zero []]

/-- Scenario D incoming constraints. -/
def scenDConstraints : Constraints := ⟨⟨50, 50⟩, ⟨100, 100⟩⟩

/-- A leaf widget for the `LayoutPhase` fixtures. -/
def widgetC5parent : Widget :=
  .mk 50 "*widget.BaseWidget" false WidgetStyle.zero ⟨⟨8, 8⟩, ⟨20, 20⟩⟩ none none

/-- The child widget, whose constraints differ from the zero value its
render object still stores. -/
def widgetC5child : Widget :=
  .mk 51 "*widget.BaseWidget" false WidgetStyle.zero ⟨⟨3, 3⟩, ⟨7, 7⟩⟩ none none

/-- A mounted child element whose `needsLayout` flag is clear and whose
render object has never been laid out. -/
def childC5 : Elem :=
  .mk 1 false none widgetC5child [] (some widgetC5child.CreateRenderObject)
    false true false

/-- A mounted parent whose `needsLayout` flag is set, owning `childC5`. -/
def parentC5 : Elem :=
  .mk 0 false none widgetC5parent [childC5]
    (some widgetC5parent.CreateRenderObject) false true true

/-- A terminal with one pending cell write (a dirty main back buffer). -/
def dirtyTerm : Term := (freshTerm 2 1).DrawCell 0 0 ⟨65, false⟩ 1 2

/-- A terminal with the alternate screen engaged. -/
def altTerm : Term := { freshTerm 4 2 with usingAltScreen := true }

/-- Recognizer for a `SetContent` at a particular coordinate. -/
def setContentAt (x y : Int) : ScreenOp → Bool
  | .setContent x' y' _ _ _ => x' == x && y' == y
  | _ => false

/-- The state at the first `Present` call: a fresh `2×1` terminal after one
`SetCell` (via `DrawCell`) at `(0,0)`. -/
def tC2first : Term := (freshTerm 2 1).DrawCell 0 0 ⟨65, false⟩ 1 2

/-- The state at the second `Present` call: the first call has run, and the
only intervening `SetCell` touched `(0,0)` (changing its rune).  The
coordinate `(1,0)` is untouched throughout: no entry in the back buffer at
either call, none in the front buffer either. -/
def tC2second : Term := (tC2first.Present.1).DrawCell 0 0 ⟨66, false⟩ 1 2

/-- A plain (non-mock, non-stateful) widget held by the parent fixture. -/
def wParC1 : Widget :=
  .mk 99 "*widget.BaseWidget" false WidgetStyle.zero ⟨⟨0, 0⟩, ⟨0, 0⟩⟩ none none

/-- The mounted child's current widget: a `*widget.TextWidget`. -/
def wOldC1 : Widget :=
  .mk 100 "*widget.TextWidget" false WidgetStyle.zero ⟨⟨0, 0⟩, ⟨0, 0⟩⟩ none none

/-- A widget of a *different kind* (`GetType` differs) that is still not a
`*MockWidget`. -/
def wNewC1 : Widget :=
  .mk 101 "*widget.SpacerWidget" false WidgetStyle.zero ⟨⟨0, 0⟩, ⟨0, 0⟩⟩ none
    none

/-- A `*widget.MockWidget` (the one dynamic type `BaseElement.Update`'s
type test singles out). -/
def wMockC1 : Widget :=
  .mk 102 "*widget.MockWidget" false WidgetStyle.zero ⟨⟨0, 0⟩, ⟨0, 0⟩⟩ none
    none

/-- A widget of the *same kind* as `wOldC1` (same dynamic type, different
allocation). -/
def wSameC1 : Widget :=
  .mk 103 "*widget.TextWidget" false WidgetStyle.zero ⟨⟨1, 1⟩, ⟨2, 2⟩⟩ none none

/-- A mounted plain element holding `wOldC1`. -/
def childC1 : Elem :=
  .mk 1 false none wOldC1 [] (some wOldC1.CreateRenderObject) false true false

/-- Its mounted parent, listing it among the children. -/
def parentC1 : Elem :=
  .mk 0 false none wParC1 [childC1] (some wParC1.CreateRenderObject) false
    true false

/-- The replacement run of the C1 witness: a `*MockWidget` delivered to the
plain `*TextWidget` child (the type test differs), with enough fuel. -/
def rBC1 : ReconRes :=
  (updateChildAt 4 parentC1 0 wMockC1 10).getD ⟨parentC1, none, 0⟩

/-! ## Helper lemmas: element field bookkeeping -/

/-- The in-place update keeps the element's identity, state, mountedness
and stateful-ness, installs the new widget, and sets the dirty flag. -/
theorem inPlaceUpdated_fields (c : Elem) (w : Widget) :
    (inPlaceUpdated c w).id = c.id ∧ (inPlaceUpdated c w).state = c.state ∧
    (inPlaceUpdated c w).widget = w ∧ (inPlaceUpdated c w).dirty = true ∧
    (inPlaceUpdated c w).mounted = c.mounted ∧
    (inPlaceUpdated c w).isStateful = c.isStateful := by
  cases c
  exact ⟨rfl, rfl, rfl, rfl, rfl, rfl⟩

theorem withChildren_withDirty_fields (p : Elem) (cs : List Elem) (d : Bool) :
    ((p.withChildren cs).withDirty d).id = p.id ∧
    ((p.withChildren cs).withDirty d).widget = p.widget ∧
    ((p.withChildren cs).withDirty d).mounted = p.mounted ∧
    ((p.withChildren cs).withDirty d).isStateful = p.isStateful ∧
    ((p.withChildren cs).withDirty d).state = p.state ∧
    ((p.withChildren cs).withDirty d).children = cs ∧
    ((p.withChildren cs).withDirty d).dirty = d := by
  cases p
  exact ⟨rfl, rfl, rfl, rfl, rfl, rfl, rfl⟩

theorem withDirty_fields (p : Elem) (d : Bool) :
    (p.withDirty d).id = p.id ∧ (p.withDirty d).widget = p.widget ∧
    (p.withDirty d).mounted = p.mounted ∧ (p.withDirty d).dirty = d := by
  cases p
  exact ⟨rfl, rfl, rfl, rfl⟩

/-- A `NewElement` allocation carries the fresh id, the wrapped widget,
the widget's stateful-ness, and starts unmounted. -/
theorem NewElement_fields (w : Widget) (fresh : Nat) :
    (NewElement w fresh).1.id = fresh ∧ (NewElement w fresh).1.widget = w ∧
    (NewElement w fresh).1.isStateful = w.stateful ∧
    (NewElement w fresh).1.mounted = false := by
  unfold NewElement
  by_cases hs : w.stateful <;> simp [hs, Elem.id, Elem.widget, Elem.isStateful,
    Elem.mounted]

/-- A mounted element's `Unmount` clears the mounted flag, the state, the
render object and the child list, preserving identity and widget. -/
theorem Unmount_fields (e : Elem) (h : e.mounted = true) :
    e.Unmount.mounted = false ∧ e.Unmount.renderObject = none ∧
    e.Unmount.children = [] ∧ e.Unmount.state = none ∧
    e.Unmount.id = e.id ∧ e.Unmount.widget = e.widget := by
  unfold Elem.Unmount
  rw [h]
  exact ⟨rfl, rfl, rfl, rfl, rfl, rfl⟩

theorem getElem?_set_same {α : Type} (l : List α) (i : Nat) (a x : α)
    (h : l[i]? = some x) : (l.set i a)[i]? = some a := by
  induction l generalizing i with
  | nil => simp at h
  | cons b t ih =>
      cases i with
      | zero => simp
      | succ i => simpa using ih i (by simpa using h)

/-! ## Helper lemmas: the reconciliation recursion only rewrites the
receiver's children and dirty flag -/

/-- `ReplaceChild` only rewrites the parent's children and dirty flag. -/
theorem recon_replace_fields (fuel : Nat) (p old newE : Elem) (fresh : Nat)
    (r : ReconRes) (h : recon fuel (.replace p old newE) fresh = some r) :
    r.elem.id = p.id ∧ r.elem.widget = p.widget ∧
    r.elem.mounted = p.mounted := by
  match fuel with
  | 0 => simp [recon] at h
  | fuel + 1 =>
      simp only [recon] at h
      split at h
      · cases h
        exact ⟨rfl, rfl, rfl⟩
      · split at h
        · exact Option.noConfusion h
        · cases h
          exact ⟨(withChildren_withDirty_fields p _ true).1,
            (withChildren_withDirty_fields p _ true).2.1,
            (withChildren_withDirty_fields p _ true).2.2.1⟩

/-- `Update` only rewrites the parent's children and dirty flag. -/
theorem recon_update_fields (fuel : Nat) (p : Elem) (i : Nat) (w : Widget)
    (fresh : Nat) (r : ReconRes)
    (h : recon fuel (.update p i w) fresh = some r) :
    r.elem.id = p.id ∧ r.elem.widget = p.widget ∧
    r.elem.mounted = p.mounted := by
  match fuel with
  | 0 => simp [recon] at h
  | fuel + 1 =>
      simp only [recon] at h
      split at h
      · cases h
        exact ⟨rfl, rfl, rfl⟩
      · rename_i child hc
        split at h
        · split at h
          · exact Option.noConfusion h
          · cases h
            have hw := withChildren_withDirty_fields p
              (p.children.set i (inPlaceUpdated child w)) true
            exact ⟨hw.1, hw.2.1, hw.2.2.1⟩
        · split at h
          · exact recon_replace_fields fuel p child (NewElement w fresh).1
              (NewElement w fresh).2 r h
          · cases h
            have hw := withChildren_withDirty_fields p
              (p.children.set i (inPlaceUpdated child w)) true
            exact ⟨hw.1, hw.2.1, hw.2.2.1⟩

/-- The `Build` tail only rewrites the element's children and dirty flag. -/
theorem recon_buildStep_fields (fuel : Nat) (e : Elem) (nw : Widget)
    (fresh : Nat) (r : ReconRes)
    (h : recon fuel (.buildStep e nw) fresh = some r) :
    r.elem.id = e.id ∧ r.elem.widget = e.widget ∧
    r.elem.mounted = e.mounted := by
  match fuel with
  | 0 => simp [recon] at h
  | fuel + 1 =>
      simp only [recon] at h
      split at h
      · split at h
        · exact Option.noConfusion h
        · cases h
          exact ⟨(withChildren_withDirty_fields e _ false).1,
            (withChildren_withDirty_fields e _ false).2.1,
            (withChildren_withDirty_fields e _ false).2.2.1⟩
      · split at h
        · exact Option.noConfusion h
        · rename_i r' hu
          cases h
          have hp := recon_update_fields fuel e 0 nw fresh r' hu
          have hw := withDirty_fields r'.elem false
          exact ⟨hw.1.trans hp.1, hw.2.1.trans hp.2.1, hw.2.2.1.trans hp.2.2⟩

/-- `Build` preserves the element's identity, widget and mountedness. -/
theorem recon_build_fields (fuel : Nat) (e : Elem) (fresh : Nat)
    (r : ReconRes) (h : recon fuel (.build e) fresh = some r) :
    r.elem.id = e.id ∧ r.elem.widget = e.widget ∧
    r.elem.mounted = e.mounted := by
  match fuel with
  | 0 => simp [recon] at h
  | fuel + 1 =>
      simp only [recon] at h
      split at h
      · cases h
        exact ⟨rfl, rfl, rfl⟩
      · split at h
        · split at h
          · exact Option.noConfusion h
          · exact recon_buildStep_fields fuel e _ fresh r h
        · split at h
          · cases h
            have hw := withDirty_fields e false
            exact ⟨hw.1, hw.2.1, hw.2.2.1⟩
          · exact recon_buildStep_fields fuel e _ fresh r h

/-- `Mount` preserves identity and widget and leaves the element
mounted. -/
theorem recon_mount_fields (fuel : Nat) (e : Elem) (fresh : Nat)
    (r : ReconRes) (h : recon fuel (.mount e) fresh = some r) :
    r.elem.id = e.id ∧ r.elem.widget = e.widget ∧
    r.elem.mounted = true := by
  match fuel with
  | 0 => simp [recon] at h
  | fuel + 1 =>
      simp only [recon] at h
      split at h
      · rename_i hm
        cases h
        exact ⟨rfl, rfl, hm⟩
      · have hb := recon_build_fields fuel _ fresh r h
        cases e
        exact hb

/-! ## Helper lemmas: the presentation loop -/

theorem setActiveBack_activeBack (t : Term) (b : TBuffer) :
    (t.setActiveBack b).activeBack = b := by
  unfold Term.setActiveBack Term.activeBack
  by_cases h : t.usingAltScreen <;> simp [h]

theorem present_clean_noop (t : Term) (h : t.activeBack.dirty = false) :
    t.Present = (t, []) := by
  unfold Term.Present
  simp [h]

theorem present_clears_dirty (t : Term) :
    (t.Present.1).activeBack.dirty = false := by
  unfold Term.Present
  by_cases h : t.activeBack.dirty
  · simp [h, setActiveBack_activeBack]
  · simp [h]

theorem filter_flatMap_eq {α β : Type} (l : List α) (f : α → List β)
    (p : β → Bool) :
    (l.flatMap f).filter p = l.flatMap fun a => (f a).filter p := by
  induction l with
  | nil => rfl
  | cons a l ih => simp [List.flatMap_cons, List.filter_append, ih]

theorem filter_filterMap_eq {α β : Type} (l : List α) (g : α → Option β)
    (p : β → Bool) :
    (l.filterMap g).filter p =
      l.filterMap fun a => (g a).bind fun b => if p b then some b else none := by
  induction l with
  | nil => rfl
  | cons a l ih =>
      cases h : g a with
      | none => simp [List.filterMap_cons, h, ih]
      | some b =>
          by_cases hp : p b <;>
            simp [List.filterMap_cons, List.filter_cons, h, hp, ih]

theorem setContentAt_emitBack (cc : Bool) (x y x' y' : Int) (bc : TCell) :
    setContentAt x y (emitBack cc x' y' bc) = (x' == x && y' == y) := by
  unfold emitBack
  split <;> rfl

/-- Every operation `writeAt` can emit at `(x', y')` is a `SetContent`
carrying exactly that coordinate. -/
theorem writeAt_setContentAt (front back : TBuffer) (cc : Bool)
    (x y x' y' : Int) :
    ((writeAt front back cc x' y').bind fun b =>
        if setContentAt x y b then some b else none) =
      if x' = x ∧ y' = y then writeAt front back cc x' y' else none := by
  unfold writeAt
  rcases back.cells ⟨x', y'⟩ with _ | bc <;>
    rcases front.cells ⟨x', y'⟩ with _ | fc
  · simp [setContentAt]
  · simp [setContentAt]
  · simp [setContentAt_emitBack]
  · by_cases hbf : bc = fc <;> simp [hbf, setContentAt_emitBack]

theorem filterMap_ite_zero (n : Nat) (o : Option ScreenOp) (x : Int)
    (h : ∀ i : Nat, i < n → (i : Int) ≠ x) :
    ((List.range n).filterMap fun i : Nat =>
      if (i : Int) = x then o else none) = [] := by
  induction n with
  | zero => rfl
  | succ n ih =>
      rw [List.range_succ, List.filterMap_append]
      rw [ih fun i hi => h i (Nat.lt_succ_of_lt hi)]
      simp [List.filterMap_cons, h n (Nat.lt_succ_self n)]

theorem filterMap_ite_single (n : Nat) (o : Option ScreenOp) (x : Int)
    (h0 : 0 ≤ x) (h1 : x < n) :
    ((List.range n).filterMap fun i : Nat =>
      if (i : Int) = x then o else none) = o.toList := by
  induction n with
  | zero => omega
  | succ n ih =>
      rw [List.range_succ, List.filterMap_append]
      by_cases hn : (n : Int) = x
      · rw [filterMap_ite_zero n o x fun i hi => by omega]
        cases o <;> simp [List.filterMap_cons, hn]
      · have hx : x < n := by omega
        rw [ih hx]
        simp [List.filterMap_cons, hn]

theorem flatMap_ite_zero (n : Nat) (L : List ScreenOp) (y : Int)
    (h : ∀ i : Nat, i < n → (i : Int) ≠ y) :
    ((List.range n).flatMap fun i : Nat => if (i : Int) = y then L else []) =
      [] := by
  induction n with
  | zero => rfl
  | succ n ih =>
      rw [List.range_succ, List.flatMap_append]
      rw [ih fun i hi => h i (Nat.lt_succ_of_lt hi)]
      simp [List.flatMap_cons, h n (Nat.lt_succ_self n)]

theorem flatMap_ite_single (n : Nat) (L : List ScreenOp) (y : Int)
    (h0 : 0 ≤ y) (h1 : y < n) :
    ((List.range n).flatMap fun i : Nat => if (i : Int) = y then L else []) =
      L := by
  induction n with
  | zero => omega
  | succ n ih =>
      rw [List.range_succ, List.flatMap_append]
      by_cases hn : (n : Int) = y
      · rw [flatMap_ite_zero n L y fun i hi => by omega]
        simp [List.flatMap_cons, hn]
      · have hy : y < n := by omega
        rw [ih hy]
        simp [List.flatMap_cons, hn]

/-- The `SetContent` operations one `presentScan` issues at an in-bounds
coordinate `(x, y)` are exactly `writeAt`'s verdict there. -/
theorem presentScan_writes (front back : TBuffer) (size : Size) (cc : Bool)
    (x y : Int) (hx0 : 0 ≤ x) (hx1 : x < size.Width)
    (hy0 : 0 ≤ y) (hy1 : y < size.Height) :
    (presentScan front back size cc).filter (setContentAt x y) =
      (writeAt front back cc x y).toList := by
  unfold presentScan
  rw [filter_flatMap_eq]
  have hrow : ∀ y' : Nat,
      ((List.range size.Width.toNat).filterMap fun x' : Nat =>
          writeAt front back cc (x' : Int) (y' : Int)).filter
            (setContentAt x y) =
        if (y' : Int) = y then (writeAt front back cc x y).toList else [] := by
    intro y'
    rw [filter_filterMap_eq]
    by_cases hy : (y' : Int) = y
    · rw [if_pos hy]
      have hpt : ∀ x' : Nat,
          ((writeAt front back cc (x' : Int) (y' : Int)).bind fun b =>
            if setContentAt x y b then some b else none) =
          (if (x' : Int) = x then writeAt front back cc x y else none) := by
        intro x'
        rw [writeAt_setContentAt]
        by_cases hx' : (x' : Int) = x
        · simp [hx', hy]
        · simp [hx', hy]
      simp only [hpt]
      exact filterMap_ite_single size.Width.toNat _ x hx0 (by omega)
    · rw [if_neg hy]
      have hpt : ∀ x' : Nat,
          ((writeAt front back cc (x' : Int) (y' : Int)).bind fun b =>
            if setContentAt x y b then some b else none) = none := by
        intro x'
        rw [writeAt_setContentAt]
        simp [hy]
      simp only [hpt]
      simp
  have hfun : (fun y' : Nat =>
      ((List.range size.Width.toNat).filterMap fun x' : Nat =>
        writeAt front back cc (x' : Int) (y' : Int)).filter (setContentAt x y)) =
      fun y' : Nat =>
        if (y' : Int) = y then (writeAt front back cc x y).toList else [] :=
    funext hrow
  rw [hfun]
  exact flatMap_ite_single size.Height.toNat _ y hy0 (by omega)

/-! ## C1 — reconciliation identity under `Update` -/

/-- C1, counterexample.  The claim says `Update` with a widget of a
different kind (`GetType`) unmounts the old element and installs a new
one.  The live `BaseElement.Update` discriminates by the `*MockWidget`
type test instead: delivering a `*SpacerWidget` to a mounted element
holding a `*TextWidget` (different kinds, but both non-mock) updates in
place — the same element instance (id 1) stays in the parent's child
list, still mounted, nothing is displaced, and the allocator is never
consulted. -/
theorem C1_update_counterexample :
    wOldC1.typeName ≠ wNewC1.typeName ∧
    childC1.widget = wOldC1 ∧ childC1.mounted = true ∧
    updateChildAt 5 parentC1 0 wNewC1 10 =
      some ⟨(parentC1.withChildren
        [inPlaceUpdated childC1 wNewC1]).withDirty true, none, 10⟩ ∧
    (inPlaceUpdated childC1 wNewC1).id = childC1.id ∧
    (inPlaceUpdated childC1 wNewC1).mounted = true :=
  ⟨by decide, rfl, rfl, rfl, rfl, rfl⟩

/-- C1, amended.  `Update` delivered to the mounted element
`p.children[i]`:

* same kind (same dynamic type — hence equal stateful-ness and equal
  `*MockWidget`-ness): the element is updated in place — the same Element
  instance (same id) and, for stateful elements, the same State survive;
  only the widget reference is replaced, the render object restyled, and
  the element (with its parent) marked dirty;
* a *stateful* element takes that in-place path for any stateful new
  widget, same kind or not — it is never replaced;
* a *plain* element is replaced exactly when one of the old and new
  widgets is a `*MockWidget` and the other is not (the live code's
  discriminator, not `GetType`): then the old element receives `Unmount()`
  and a freshly allocated element wrapping the new widget is mounted in
  its slot. -/
theorem C1_update_reconciliation (p child : Elem) (i fuel fresh : Nat)
    (w : Widget) (hc : p.children[i]? = some child) :
    (child.widget.typeName = w.typeName →
      child.widget.stateful = w.stateful →
      child.isStateful = child.widget.stateful →
      updateChildAt (fuel + 1) p i w fresh =
        some ⟨(p.withChildren
          (p.children.set i (inPlaceUpdated child w))).withDirty true,
          none, fresh⟩) ∧
    ((inPlaceUpdated child w).id = child.id ∧
     (inPlaceUpdated child w).state = child.state ∧
     (inPlaceUpdated child w).widget = w ∧
     (inPlaceUpdated child w).dirty = true) ∧
    (child.isStateful = true → w.stateful = true →
      updateChildAt (fuel + 1) p i w fresh =
        some ⟨(p.withChildren
          (p.children.set i (inPlaceUpdated child w))).withDirty true,
          none, fresh⟩) ∧
    (child.isStateful = false → child.widget.isMock ≠ w.isMock →
      p.children.findIdx? (fun c => c.id == child.id) = some i →
      ∀ r : ReconRes, updateChildAt (fuel + 1) p i w fresh = some r →
        r.displaced = some child.Unmount ∧
        (child.mounted = true → child.Unmount.mounted = false ∧
          child.Unmount.renderObject = none ∧ child.Unmount.children = []) ∧
        r.elem.dirty = true ∧
        ∃ c', r.elem.children[i]? = some c' ∧ c'.id = fresh ∧
          c'.widget = w ∧ c'.mounted = true) := by
  have hip := inPlaceUpdated_fields child w
  refine ⟨?_, ⟨hip.1, hip.2.1, hip.2.2.1, hip.2.2.2.1⟩, ?_, ?_⟩
  · intro htn hsf hinv
    by_cases hst : child.isStateful = true
    · have hws : w.stateful = true := by rw [← hsf, ← hinv, hst]
      simp [updateChildAt, recon, hc, hst, hws]
    · have hmock : child.widget.isMock = w.isMock := by
        simp [Widget.isMock, htn]
      simp [updateChildAt, recon, hc, hst, hmock]
  · intro hst hws
    simp [updateChildAt, recon, hc, hst, hws]
  · intro hst hmock hidx r h
    have hb : (child.widget.isMock != w.isMock) = true := by
      simp [bne_iff_ne]
      exact hmock
    simp only [updateChildAt, recon, hc, hst, hb] at h
    simp only [Bool.false_eq_true, if_false, if_true] at h
    match fuel, h with
    | g + 1, h =>
        simp only [recon] at h
        rw [hidx] at h
        simp only at h
        rcases hm : recon g (.mount (NewElement w fresh).1)
            (NewElement w fresh).2 with _ | r' <;> rw [hm] at h
        · exact Option.noConfusion h
        · cases h
          have hmf := recon_mount_fields g _ _ r' hm
          have hne := NewElement_fields w fresh
          refine ⟨rfl, fun hm' => ⟨(Unmount_fields child hm').1,
            (Unmount_fields child hm').2.1, (Unmount_fields child hm').2.2.1⟩,
            ?_, r'.elem, ?_, ?_, ?_, hmf.2.2⟩
          · exact (withChildren_withDirty_fields p _ true).2.2.2.2.2.2
          · have hch := (withChildren_withDirty_fields p
              (p.children.set i r'.elem) true).2.2.2.2.2.1
            rw [hch]
            exact getElem?_set_same p.children i r'.elem child hc
          · exact hmf.1.trans hne.1
          · exact hmf.2.1.trans hne.2.1

/-- C1, witness: the same-kind run updates in place; the mock run
replaces, displacing the unmounted old child and mounting a fresh element
(id 10) wrapping the mock widget. -/
theorem C1_update_reconciliation_witness :
    updateChildAt 5 parentC1 0 wSameC1 10 =
      some ⟨(parentC1.withChildren
        [inPlaceUpdated childC1 wSameC1]).withDirty true, none, 10⟩ ∧
    rBC1.displaced = some childC1.Unmount ∧
    (∃ c', rBC1.elem.children[0]? = some c' ∧ c'.id = 10 ∧
      c'.widget = wMockC1 ∧ c'.mounted = true) := by
  have hA := (C1_update_reconciliation parentC1 childC1 0 4 10 wSameC1
    rfl).1 rfl rfl rfl
  have hB := (C1_update_reconciliation parentC1 childC1 0 3 10 wMockC1
    rfl).2.2.2 rfl (by decide) rfl rBC1 rfl
  exact ⟨hA, hB.1, hB.2.2.2⟩

/-! ## C2 — the per-coordinate writes of one `Present` -/

/-- C2, counterexample.  The claim says an unchanged coordinate gets no
`SetContent` on the second `Present`, and a blank is written only where
the back buffer has no entry but the front did.  At `(1,0)` neither buffer
ever held a cell — unchanged between the calls, front never occupied — yet
the second `Present` still issues a blank `SetContent` there, because the
scan's skip condition requires *both* buffers to hold (equal) cells. -/
theorem C2_present_counterexample :
    tC2first.activeBack.cells ⟨1, 0⟩ = none ∧
    tC2second.activeBack.cells ⟨1, 0⟩ = none ∧
    tC2second.activeFront.cells ⟨1, 0⟩ = none ∧
    (tC2second.Present.2).filter (setContentAt 1 0) =
      [ScreenOp.setContent 1 0 spaceRune [] TStyle.default] := by
  refine ⟨rfl, rfl, rfl, ?_⟩
  rfl

/-- C2, amended: on a `Present` against a dirty back buffer, each
in-surface coordinate receives exactly one `SetContent` unless back and
front both hold that cell with equal rune, style and combining list (then
none); the back cell is written (with the placeholder substitution when
combining support is off), and a blank is written wherever the back buffer
has no entry — whether or not the front buffer ever did. -/
theorem C2_present_diff (t : Term) (x y : Int)
    (hd : t.activeBack.dirty = true)
    (hx0 : 0 ≤ x) (hx1 : x < t.size.Width)
    (hy0 : 0 ≤ y) (hy1 : y < t.size.Height) :
    (t.Present.2).filter (setContentAt x y) =
      (match t.activeBack.cells ⟨x, y⟩, t.activeFront.cells ⟨x, y⟩ with
       | some bc, some fc =>
           if bc = fc then [] else [emitBack t.combiningChars x y bc]
       | some bc, none => [emitBack t.combiningChars x y bc]
       | none, _ => [ScreenOp.setContent x y spaceRune [] TStyle.default]) := by
  unfold Term.Present
  simp only [hd, Bool.not_true, Bool.false_eq_true, if_false]
  rw [List.filter_append]
  rw [presentScan_writes t.activeFront t.activeBack t.size t.combiningChars
    x y hx0 hx1 hy0 hy1]
  unfold writeAt
  rcases t.activeBack.cells ⟨x, y⟩ with _ | bc <;>
    rcases t.activeFront.cells ⟨x, y⟩ with _ | fc <;>
    simp [setContentAt]
  split <;> simp [setContentAt]

/-- C2, witness: the changed coordinate `(0,0)` of the fixture gets
exactly one `SetContent`, carrying the new cell. -/
theorem C2_present_diff_witness :
    (tC2second.Present.2).filter (setContentAt 0 0) =
      [ScreenOp.setContent 0 0 ⟨66, false⟩ [] (mkTStyle 1 2 0)] := by
  have h := C2_present_diff tC2second 0 0 rfl (by decide) (by decide)
    (by decide) (by decide)
  rw [h]
  rfl

/-! ## C3 — box-model layout -/

/-- C3: box-model layout.  Generally: the first child is laid out with the
inset-reduced content constraints (each bound floored at zero per
component), the content size (defaulting to the content constraints'
`MinSize` without a child) is widened by the insets again and re-clamped
against the original constraints.  In particular, Scenario D: with padding
`{5,5,5,5}`, no border, constraints `{Min:{50,50},Max:{100,100}}` and a
min-sizing child, the child receives `{Min:{40,40},Max:{90,90}}` and the
box returns `{50,50}`. -/
theorem C3_box_layout (st : WidgetStyle) (c : Constraints) (sz0 : Size)
    (cs0 : Constraints) (child : RenderObj) (rest : List RenderObj) :
    contentConstraintsOf st c =
      ⟨⟨max 0 (c.MinSize.Width - st.horizontalInsets),
        max 0 (c.MinSize.Height - st.verticalInsets)⟩,
       ⟨max 0 (c.MaxSize.Width - st.horizontalInsets),
        max 0 (c.MaxSize.Height - st.verticalInsets)⟩⟩ ∧
    (RenderObj.Layout (.box sz0 cs0 st (child :: rest)) c).1.children =
      (child.Layout (contentConstraintsOf st c)).1 :: rest ∧
    (RenderObj.Layout (.box sz0 cs0 st (child :: rest)) c).2 =
      c.Constrain
        ⟨(child.Layout (contentConstraintsOf st c)).2.Width + st.horizontalInsets,
         (child.Layout (contentConstraintsOf st c)).2.Height + st.verticalInsets⟩ ∧
    (RenderObj.Layout (.box sz0 cs0 st []) c).2 =
      c.Constrain
        ⟨(contentConstraintsOf st c).MinSize.Width + st.horizontalInsets,
         (contentConstraintsOf st c).MinSize.Height + st.verticalInsets⟩ ∧
    (scenDBox.Layout scenDConstraints).2 = ⟨50, 50⟩ ∧
    ((scenDBox.Layout scenDConstraints).1.children.head?.map
        RenderObj.constraints) = some ⟨⟨40, 40⟩, ⟨90, 90⟩⟩ := by
  refine ⟨rfl, ?_, ?_, ?_, rfl, rfl⟩ <;>
    simp [RenderObj.Layout, layoutChildren, RenderObj.children]

/-! ## C4 — failed `Resume` and the suspended flag -/

/-- C4, counterexample.  The claim (following the spec) says a failed
`Resume` nevertheless clears the suspended flag.  In the code the error
from `screen.Init()` is returned *before* the `t.suspended = false` line,
so after `Suspend` followed by a failing `Resume` the flag is still set. -/
theorem C4_resume_counterexample :
    ((freshTerm 80 24).Suspend.Resume true).2 = true ∧
    ((freshTerm 80 24).Suspend.Resume true).1.suspended = true := ⟨rfl, rfl⟩

/-- C4, amended: the `Init` error is returned synchronously, and a failed
`Resume` leaves the terminal state (in particular the suspended flag)
*unchanged* — still suspended; only a successful `Resume` clears the
flag. -/
theorem C4_resume_error_flag (t : Term) (e : Bool) :
    (t.Resume e).2 = e ∧
    (t.Resume true).1 = t ∧
    (t.Resume false).1.suspended = false := by
  refine ⟨?_, rfl, rfl⟩
  cases e <;> rfl

/-! ## C5 — `LayoutPhase` and clean children -/

/-- C5, counterexample.  The claim says the recursion lays out each child's
render object even when that child's own `needsLayout` flag is clear.  But
`LayoutPhase` returns immediately on a clean element, so after the dirty
parent's `LayoutPhase` the clean child is bit-for-bit unchanged: its render
object still stores the zero constraints, not the child widget's
constraints `{Min:{3,3},Max:{7,7}}` a layout would have recorded. -/
theorem C5_layoutPhase_counterexample :
    parentC5.needsLayout = true ∧ childC5.needsLayout = false ∧
    parentC5.LayoutPhase.children = [childC5] ∧
    childC5.renderObject.map RenderObj.constraints = some ⟨⟨0, 0⟩, ⟨0, 0⟩⟩ ∧
    widgetC5child.GetConstraints = ⟨⟨3, 3⟩, ⟨7, 7⟩⟩ ∧
    (⟨⟨0, 0⟩, ⟨0, 0⟩⟩ : Constraints) ≠ ⟨⟨3, 3⟩, ⟨7, 7⟩⟩ := by
  refine ⟨rfl, rfl, ?_, rfl, rfl, by decide⟩
  simp [Elem.LayoutPhase, layoutPhaseList, parentC5, childC5, Elem.children]

/-- C5, amended: when `needsLayout` is set, `LayoutPhase` lays out the
owned render object with the widget's constraints, *calls* `LayoutPhase`
on every child, and clears the flag; but a child whose own flag is clear
returns unchanged from that call, so layout *is* skipped for clean
children. -/
theorem C5_layoutPhase_flag (e : Elem) :
    (e.needsLayout = true →
      e.LayoutPhase = .mk e.id e.isStateful e.state e.widget
        (layoutPhaseList e.children)
        (e.renderObject.map fun r => (r.Layout e.widget.GetConstraints).1)
        e.dirty e.mounted false) ∧
    (e.needsLayout = false → e.LayoutPhase = e) := by
  obtain ⟨i, s, st, w, cs, ro, d, m, nl⟩ := e
  constructor <;> intro h <;>
    simp_all [Elem.LayoutPhase, Elem.id, Elem.isStateful, Elem.state,
      Elem.widget, Elem.children, Elem.renderObject, Elem.dirty,
      Elem.mounted, Elem.needsLayout]

/-- C5, witness: the dirty parent fixture takes the layout branch; the
clean child fixture is a no-op. -/
theorem C5_layoutPhase_flag_witness :
    parentC5.LayoutPhase = .mk parentC5.id parentC5.isStateful parentC5.state
      parentC5.widget (layoutPhaseList parentC5.children)
      (parentC5.renderObject.map fun r =>
        (r.Layout parentC5.widget.GetConstraints).1)
      parentC5.dirty parentC5.mounted false ∧
    childC5.LayoutPhase = childC5 :=
  ⟨(C5_layoutPhase_flag parentC5).1 rfl, (C5_layoutPhase_flag childC5).2 rfl⟩

/-! ## C6 — `WithMinSize` / `WithMaxSize` on a crossing bound -/

/-- C6, counterexample.  The claim says a bound that crosses the other
makes both bounds collapse to the new value (a tight envelope at the new
value).  In the code, `Normalize` takes the componentwise minimum and
maximum, so the two bounds *swap*: replacing the minimum of
`{Min:{0,0},Max:{10,10}}` by `{20,20}` yields `{Min:{10,10},Max:{20,20}}`,
not the tight `{Min:{20,20},Max:{20,20}}`. -/
theorem C6_withMinSize_counterexample :
    Constraints.WithMinSize ⟨⟨0, 0⟩, ⟨10, 10⟩⟩ ⟨20, 20⟩ =
      ⟨⟨10, 10⟩, ⟨20, 20⟩⟩ ∧
    Constraints.WithMinSize ⟨⟨0, 0⟩, ⟨10, 10⟩⟩ ⟨20, 20⟩ ≠
      ⟨⟨20, 20⟩, ⟨20, 20⟩⟩ ∧
    (Constraints.WithMinSize ⟨⟨0, 0⟩, ⟨10, 10⟩⟩ ⟨20, 20⟩).IsTight = false := by
  refine ⟨rfl, by decide, rfl⟩

/-- C6, amended: `WithMinSize`/`WithMaxSize` replace the bound and
re-normalize; the result has `Min` = componentwise minimum and `Max` =
componentwise maximum of the new bound and the untouched bound — so when
the new bound crosses the other on a component the two values swap there
(the envelope becomes `[other, new]`, normalized, and tight only where the
two coincide). -/
theorem C6_withBounds_normalize (c : Constraints) (s : Size) :
    c.WithMinSize s =
      ⟨⟨min s.Width c.MaxSize.Width, min s.Height c.MaxSize.Height⟩,
       ⟨max s.Width c.MaxSize.Width, max s.Height c.MaxSize.Height⟩⟩ ∧
    c.WithMaxSize s =
      ⟨⟨min c.MinSize.Width s.Width, min c.MinSize.Height s.Height⟩,
       ⟨max c.MinSize.Width s.Width, max c.MinSize.Height s.Height⟩⟩ ∧
    (c.WithMinSize s).IsNormalized = true ∧
    (c.WithMaxSize s).IsNormalized = true := by
  refine ⟨rfl, rfl, ?_, ?_⟩ <;>
    simp [Constraints.WithMinSize, Constraints.WithMaxSize,
      Constraints.Normalize, Constraints.IsNormalized]

/-! ## C7 — the `DrawCell` clip/bounds gate -/

/-- C7, counterexample.  The claim says the cell is forwarded iff the
*offset-transformed* point lies within both the bounds and the innermost
clip rect.  `TerminalContext.IsInBounds` tests the *untransformed* point:
at offset `(5,0)` on a `10×10` terminal, `DrawCell(8,0)` is forwarded to
the physical point `(13,0)` — inside the clip rect but outside the
terminal's bounds. -/
theorem C7_drawCell_counterexample :
    offsetCtx.DrawCell 8 0 spaceRune 1 2 = some (⟨13, 0⟩, spaceRune, 1, 2) ∧
    offsetCtx.IsInClipRect 8 0 = true ∧
    ¬ (0 ≤ (13 : Int) ∧ (13 : Int) < offsetCtx.size.Width ∧
       0 ≤ (0 : Int) ∧ (0 : Int) < offsetCtx.size.Height) := by
  refine ⟨rfl, rfl, by decide⟩

/-- C7, amended: `DrawCell(x,y)` is forwarded iff the *untransformed*
`(x,y)` lies within the context's bounds and the *offset-transformed*
point lies within the innermost active clip rect (vacuously, when no clip
rect is active); the forwarded write targets the transformed point with
the glyph and colors unchanged. -/
theorem C7_drawCell_gate (c : TermCtx) (x y : Int) (ch : Rune) (fg bg : Nat) :
    ((c.DrawCell x y ch fg bg).isSome = true ↔
      ((0 ≤ x ∧ x < c.size.Width ∧ 0 ≤ y ∧ y < c.size.Height) ∧
        (c.clip = [] ∨ ∃ r rest, c.clip = r :: rest ∧
          r.Min.X ≤ x + c.offset.X ∧ x + c.offset.X < r.Max.X ∧
          r.Min.Y ≤ y + c.offset.Y ∧ y + c.offset.Y < r.Max.Y))) ∧
    c.DrawCell x y ch fg bg =
      (if (c.IsInBounds x y && c.IsInClipRect x y) = true
        then some (⟨x + c.offset.X, y + c.offset.Y⟩, ch, fg, bg) else none) := by
  constructor
  · unfold TermCtx.DrawCell TermCtx.IsInBounds TermCtx.IsInClipRect
    rcases c with ⟨sz, off, clip⟩
    rcases clip with _ | ⟨r, rest⟩ <;>
      simp +decide [and_assoc]
  · unfold TermCtx.DrawCell
    by_cases h1 : c.IsInBounds x y <;> by_cases h2 : c.IsInClipRect x y <;>
      simp [h1, h2]

/-! ## C8 — `Present` idempotence -/

/-- C8: a second `Present` with no intervening `SetCell` issues zero
device operations; `Present` is a no-op on a clean active back buffer; a
(always successful) `Present` leaves the active back buffer clean. -/
theorem C8_present_idempotent (t : Term) :
    ((t.Present.1).Present).2 = [] ∧
    (t.activeBack.dirty = false → t.Present = (t, [])) ∧
    (t.Present.1).activeBack.dirty = false := by
  refine ⟨?_, present_clean_noop t, present_clears_dirty t⟩
  rw [present_clean_noop (t.Present.1) (present_clears_dirty t)]

/-- C8, witness at a dirty and at a clean terminal. -/
theorem C8_present_idempotent_witness :
    ((dirtyTerm.Present.1).Present).2 = [] ∧
    (freshTerm 2 1).Present = (freshTerm 2 1, []) :=
  ⟨(C8_present_idempotent dirtyTerm).1,
   (C8_present_idempotent (freshTerm 2 1)).2.1 rfl⟩

/-! ## C9 — alternate screen and the main buffers -/

/-- C9, counterexample.  The claim says no drawing *or cursor* operation
touches the main buffers while the alternate screen is engaged.  But
`Terminal.SetCursor` writes `t.mainBackBuffer` unconditionally (unlike
`HideCursor`, it never selects by `usingAltScreen`), moving the main back
buffer's cursor and marking it dirty even in alt-screen mode. -/
theorem C9_setCursor_counterexample :
    altTerm.usingAltScreen = true ∧
    altTerm.mainBack.cursor = ⟨0, 0⟩ ∧ altTerm.mainBack.dirty = false ∧
    (altTerm.SetCursor 3 1).mainBack.cursor = ⟨3, 1⟩ ∧
    (altTerm.SetCursor 3 1).mainBack.dirty = true :=
  ⟨rfl, rfl, rfl, rfl, rfl⟩

/-- C9, amended: while the alternate screen is engaged, drawing operations
and `HideCursor` touch only the alternate buffers, leaving both main
buffers untouched; `SetCursor`, however, always writes the *main* back
buffer's cursor (marking it dirty) — though it never alters main cell
content, so exiting the alternate screen still re-presents the main-screen
cells with no content loss. -/
theorem C9_altscreen_main_preserved (t : Term) (x y : Int) (ch : Rune)
    (fg bg mask : Nat) (h : t.usingAltScreen = true) :
    (t.DrawStyledCell x y ch fg bg mask).mainFront = t.mainFront ∧
    (t.DrawStyledCell x y ch fg bg mask).mainBack = t.mainBack ∧
    t.HideCursor.mainBack = t.mainBack ∧
    t.HideCursor.mainFront = t.mainFront ∧
    (t.SetCursor x y).mainBack.cells = t.mainBack.cells ∧
    (t.SetCursor x y).mainFront = t.mainFront ∧
    t.ExitAltScreen = Term.Present { t with usingAltScreen := false } := by
  unfold Term.DrawStyledCell Term.HideCursor Term.SetCursor
    Term.ExitAltScreen TBuffer.SetCursor
  simp [h]

/-- C9, witness at the alt-screen fixture. -/
theorem C9_altscreen_main_preserved_witness :
    (altTerm.DrawStyledCell 0 0 ⟨65, false⟩ 1 2 0).mainBack = altTerm.mainBack ∧
    (altTerm.SetCursor 3 1).mainBack.cells = altTerm.mainBack.cells := by
  have h := C9_altscreen_main_preserved altTerm 0 0 ⟨65, false⟩ 1 2 0 rfl
  exact ⟨h.2.1, h.2.2.2.2.1⟩

/-! ## C10 — clipboard fallback -/

/-- C10: whenever the current provider's `Set` (resp. `Get`) returns an
error, the terminal switches to a fresh in-memory fallback provider and
surfaces no error: `SetClipboard` stores the content in the fallback and
returns nil, `GetClipboard` returns the fresh fallback's (empty) content
with nil. -/
theorem C10_clipboard_fallback (t : Term) (content gv : String) (ge se : Bool)
    (hp : t.clipboardProvider = ClipProvider.system gv ge se) :
    (se = true →
      (t.SetClipboard content).2 = false ∧
      (t.SetClipboard content).1.clipboardProvider =
        ClipProvider.fallback content) ∧
    (ge = true →
      t.GetClipboard.2 = ("", false) ∧
      t.GetClipboard.1.clipboardProvider = ClipProvider.fallback "") := by
  unfold Term.SetClipboard Term.GetClipboard
  rw [hp]
  cases se <;> cases ge <;> simp [ClipProvider.set, ClipProvider.get]

/-- C10, witness at a concrete failing provider. -/
theorem C10_clipboard_fallback_witness :
    ((failingClipTerm.SetClipboard "hello").2 = false ∧
      (failingClipTerm.SetClipboard "hello").1.clipboardProvider =
        ClipProvider.fallback "hello") ∧
    (failingClipTerm.GetClipboard.2 = ("", false) ∧
      failingClipTerm.GetClipboard.1.clipboardProvider =
        ClipProvider.fallback "") := by
  have h := C10_clipboard_fallback failingClipTerm "hello" "sys" true true rfl
  exact ⟨h.1 rfl, h.2 rfl⟩

end Tide
